import Mathlib

/-!
Shallow embedding of the twopence client protocol engine
(src/library/protocol.c and src/library/transaction.c).

Machine integers are modelled as Nat / Int; byte streams as `List Nat`;
fallible I/O is made explicit by passing the outcome of each underlying
plugin call (recv / send / poll / open) as a parameter, so that every
control path of the C source is reproduced.  Two levels are embedded:
the byte-level codec (`__twopence_pipe_read_frame` and friends) and the
frame-level client drivers, which consume a list of already-decoded
frames standing for the sequence of frames the link delivers.
-/

namespace Twopence

/-- Modelled from the spec: the error constants live in twopence.h, which is
not under src/.  Spec section 6 only requires them to be distinct integer
kinds, "all negative in the C-style API", which these are. -/
def TWOPENCE_PARAMETER_ERROR : Int := -1

def TWOPENCE_OPEN_SESSION_ERROR : Int := -2

def TWOPENCE_SEND_COMMAND_ERROR : Int := -3

def TWOPENCE_FORWARD_INPUT_ERROR : Int := -4

def TWOPENCE_RECEIVE_RESULTS_ERROR : Int := -5

def TWOPENCE_LOCAL_FILE_ERROR : Int := -6

def TWOPENCE_SEND_FILE_ERROR : Int := -7

def TWOPENCE_REMOTE_FILE_ERROR : Int := -8

def TWOPENCE_RECEIVE_FILE_ERROR : Int := -9

def TWOPENCE_INTERRUPT_COMMAND_ERROR : Int := -10

def TWOPENCE_PROTOCOL_ERROR : Int := -11

/-- POSIX errno ENAMETOOLONG, tested by the public inject/extract wrappers. -/
def ENAMETOOLONG : Int := 36

/-- protocol.c line 34: size of the work buffer for receiving data. -/
def BUFFER_SIZE : Nat := 32768

/-- protocol.c line 35: size of the work buffer for sending data. -/
def COMMAND_BUFFER_SIZE : Nat := 8192

/-- protocol.c `compute_length` (lines 65-71): the announced total frame
length is `(buffer[2] << 8) | buffer[3]`, big endian. -/
def compute_length (buf : List Nat) : Nat :=
  256 * buf.getD 2 0 + buf.getD 3 0

/-- protocol.c `store_length` (lines 57-62): write the 16-bit length into
bytes 2 and 3 of the header, big endian.  Returns the updated buffer. -/
def store_length (length : Nat) (buf : List Nat) : List Nat :=
  (buf.set 2 ((length % 65536) / 256)).set 3 (length % 256)

/-- protocol.c `__twopence_pipe_recvbuf` (lines 135-169), abstracted over the
incoming byte stream: it loops poll+recv until exactly `n` bytes have been
read, and fails (poll error, poll timeout, recv error, or EOF on the link,
each of which makes it return a negative code) when the stream cannot supply
them.  Returns the bytes read and the remaining stream. -/
def __twopence_pipe_recvbuf (stream : List Nat) (n : Nat) :
    Option (List Nat × List Nat) :=
  if n ≤ stream.length then some (stream.take n, stream.drop n) else none

/-- protocol.c `__twopence_pipe_sendbuf` (lines 171-199): loop poll+send until
all `count` bytes are out or the plugin send fails.  `sendRes` is the outcome
of the underlying transfer: a negative plugin/poll error is returned as is,
otherwise the function returns the full byte count it was asked to send. -/
def __twopence_pipe_sendbuf (sendRes : Int) (count : Nat) : Int :=
  if sendRes < 0 then sendRes else (count : Int)

/-- Result of `__twopence_pipe_read_frame`: the C return code, the number of
bytes consumed from the link, and the buffer contents on success. -/
structure ReadFrameOut where
  rc : Int
  consumed : Nat
  buffer : List Nat
deriving DecidableEq, Repr

/-- protocol.c `__twopence_pipe_read_frame` (lines 204-228): read the 4-byte
header, decode the announced length, reject `length > size` and then
`length < 4` with PROTOCOL before reading any payload byte, and otherwise
read the announced `length - 4` payload bytes. -/
def __twopence_pipe_read_frame (size : Nat) (stream : List Nat) : ReadFrameOut :=
  match __twopence_pipe_recvbuf stream 4 with
  | none => ⟨TWOPENCE_PROTOCOL_ERROR, stream.length, []⟩
  | some (hdr, rest) =>
    let length := compute_length hdr
    if length > size then ⟨TWOPENCE_PROTOCOL_ERROR, 4, hdr⟩
    else if length < 4 then ⟨TWOPENCE_PROTOCOL_ERROR, 4, hdr⟩
    else
      match __twopence_pipe_recvbuf rest (length - 4) with
      | none => ⟨TWOPENCE_PROTOCOL_ERROR, 4 + rest.length, hdr⟩
      | some (payload, _) => ⟨0, length, hdr ++ payload⟩

/-- protocol.c `_twopence_invalid_username` (lines 92-107): scan the name and
return `true` (invalid) at the first byte that is not a digit, an upper-case
letter, a lower-case letter, or an underscore; an exhausted scan (which
happens immediately for the empty name) returns `false`. -/
def _twopence_invalid_username : List Nat → Bool
  | [] => false
  | c :: p =>
    if 48 ≤ c ∧ c ≤ 57 then _twopence_invalid_username p
    else if 65 ≤ c ∧ c ≤ 90 then _twopence_invalid_username p
    else if 97 ≤ c ∧ c ≤ 122 then _twopence_invalid_username p
    else if c = 95 then _twopence_invalid_username p
    else true

/-- The character class `[A-Za-z0-9_]` of spec section 4.5, on bytes. -/
def allowedUserChar (c : Nat) : Bool :=
  (48 ≤ c ∧ c ≤ 57) ∨ (65 ≤ c ∧ c ≤ 90) ∨ (97 ≤ c ∧ c ≤ 122) ∨ c = 95

/-- Outcome of one iteration of the poll loop in
`__twopence_pipe_recvbuf_both` (protocol.c lines 239-291). -/
inductive BothOutcome where
  /-- poll returned 0: "recv timeout on link", PROTOCOL error. -/
  | timeoutErr
  /-- first guard (line 265): read a complete frame from the link. -/
  | readLink
  /-- second guard (line 270): read a stdin chunk and return it as a
  '0' or 'E' frame of announced length count+4 (lines 271-287). -/
  | stdinFrame
  /-- no guard fired: fall through to the "Can we get here?" comment
  (line 290) and loop to poll again. -/
  | spin
deriving DecidableEq, Repr

/-- One iteration of the poll loop of `__twopence_pipe_recvbuf_both`
(protocol.c lines 239-291), exactly as written: BOTH guards test
`pfd[0].revents & POLLIN`, i.e. the link descriptor (lines 265 and 270);
the second guard was evidently meant to test `pfd[1]` (stdin).
`haveStdin` is `stdin_fd >= 0` (so that stdin was polled as `pfd[1]`). -/
def __twopence_pipe_recvbuf_both (haveStdin linkReadable stdinReadable : Bool) :
    BothOutcome :=
  if ¬linkReadable ∧ ¬(haveStdin ∧ stdinReadable) then .timeoutErr
  else if linkReadable then .readLink
  else if haveStdin ∧ linkReadable then .stdinFrame
  else .spin

/-- Result of `_twopence_send_file`: the C return code, the number of `read`
calls issued on the local file descriptor, and the number of 'd' data frames
handed to `__twopence_pipe_sendbuf`. -/
structure SendFileOut where
  rc : Int
  reads : Nat
  dsends : Nat
deriving DecidableEq, Repr

/-- protocol.c `_twopence_send_file` (lines 448-480): while bytes remain,
read `min remaining (BUFFER_SIZE - 4)` bytes from the file (a short or
failed read yields LOCAL_FILE), build a 'd' frame and push it with
`__twopence_pipe_sendbuf`.  The error guard on the send is written
`if (!__twopence_pipe_sendbuf(...))`, which only fires on a 0 return;
a negative (error) return falls through and the loop keeps going.
`readRes i` and `sendRes i` are the outcomes of the i-th file read and of
the underlying link transfer for the i-th chunk. -/
def _twopence_send_file (readRes sendRes : Nat → Int) :
    Nat → Nat → SendFileOut
  | 0, _ => ⟨0, 0, 0⟩
  | remaining + 1, i =>
    let size := min (remaining + 1) (BUFFER_SIZE - 4)
    if readRes i ≠ (size : Int) then ⟨TWOPENCE_LOCAL_FILE_ERROR, 1, 0⟩
    else if __twopence_pipe_sendbuf (sendRes i) (size + 4) = 0 then
      ⟨TWOPENCE_SEND_FILE_ERROR, 1, 1⟩
    else
      let rest := _twopence_send_file readRes sendRes (remaining + 1 - size) (i + 1)
      ⟨rest.rc, rest.reads + 1, rest.dsends + 1⟩
termination_by remaining _ => remaining
decreasing_by
  simp only [BUFFER_SIZE]
  omega

/-- A frame as the client sees it after the codec has decoded it: its packet
type byte, the decimal integer its payload denotes (used by the 'M', 'm' and
's' frames, whose payloads are ASCII integers), and its raw payload bytes
(used by the 'd' data frames).  The byte-level decoding itself is
`__twopence_pipe_read_frame` above. -/
structure Frame where
  typ : Nat
  ival : Int
  payload : List Nat
deriving DecidableEq, Repr

/-- Result of `_twopence_receive_file`: the C return code and the bytes
written to the local file, in order. -/
structure RecvFileOut where
  rc : Int
  written : List Nat
deriving DecidableEq, Repr

/-- protocol.c `_twopence_receive_file` (lines 485-522): while bytes remain,
read one frame (stream end stands for a failed `__twopence_pipe_read_frame`
and yields RECEIVE_FILE); a frame is rejected unless its type is 'd' (100)
and its payload does not exceed the remaining count (`received < 0` is
impossible after the codec's `length >= 4` check); a non-empty payload is
written to the local file and deducted from `remaining`, an empty payload
changes nothing.  Local writes are assumed to succeed (their failure branch,
LOCAL_FILE, is not exercised by any claim). -/
def _twopence_receive_file : Int → List Frame → List Nat → RecvFileOut
  | remaining, [], written =>
    if remaining ≤ 0 then ⟨0, written⟩
    else ⟨TWOPENCE_RECEIVE_FILE_ERROR, written⟩
  | remaining, f :: rest, written =>
    if remaining ≤ 0 then ⟨0, written⟩
    else
      let received : Int := f.payload.length
      if f.typ ≠ 100 ∨ received > remaining then
        ⟨TWOPENCE_RECEIVE_FILE_ERROR, written⟩
      else if received > 0 then
        _twopence_receive_file (remaining - received) rest (written ++ f.payload)
      else
        _twopence_receive_file remaining rest written

/-- Result of `_twopence_read_major` / `_twopence_read_minor`: the C return
code, the value of the output variable after the call (unchanged when the
call failed), and the rest of the frame stream. -/
structure ReadIntOut where
  rc : Int
  val : Int
  rest : List Frame
deriving DecidableEq, Repr

/-- protocol.c `_twopence_read_major` (lines 377-393): read one frame
(stream end stands for a failed read); unless its type is 'M' (77) return
RECEIVE_FILE leaving the output untouched, else parse the decimal payload. -/
def _twopence_read_major (frames : List Frame) (major : Int) : ReadIntOut :=
  match frames with
  | [] => ⟨TWOPENCE_RECEIVE_FILE_ERROR, major, []⟩
  | f :: rest =>
    if f.typ ≠ 77 then ⟨TWOPENCE_RECEIVE_FILE_ERROR, major, rest⟩
    else ⟨0, f.ival, rest⟩

/-- protocol.c `_twopence_read_minor` (lines 398-414): same for 'm' (109). -/
def _twopence_read_minor (frames : List Frame) (minor : Int) : ReadIntOut :=
  match frames with
  | [] => ⟨TWOPENCE_RECEIVE_FILE_ERROR, minor, []⟩
  | f :: rest =>
    if f.typ ≠ 109 then ⟨TWOPENCE_RECEIVE_FILE_ERROR, minor, rest⟩
    else ⟨0, f.ival, rest⟩

/-- Result of `_twopence_read_size`: the C return code and the values of the
two output variables `size` and `remote_rc` after the call. -/
structure ReadSizeOut where
  rc : Int
  size : Int
  remote_rc : Int
  rest : List Frame
deriving DecidableEq, Repr

/-- protocol.c `_twopence_read_size` (lines 420-443): read one frame; an
's' (115) frame sets `size`, an 'M' (77) frame sets `remote_rc`, anything
else is RECEIVE_FILE.  Exactly one of the two outputs is written; the other
keeps its previous (caller-supplied) value. -/
def _twopence_read_size (frames : List Frame) (size remote_rc : Int) :
    ReadSizeOut :=
  match frames with
  | [] => ⟨TWOPENCE_RECEIVE_FILE_ERROR, size, remote_rc, []⟩
  | f :: rest =>
    if f.typ = 115 then ⟨0, f.ival, remote_rc, rest⟩
    else if f.typ = 77 then ⟨0, size, f.ival, rest⟩
    else ⟨TWOPENCE_RECEIVE_FILE_ERROR, size, remote_rc, rest⟩

/-- Environment of a client operation: whether `twopence_tune_stdin`
succeeded, whether `__twopence_pipe_open_link` returned a valid fd, and the
outcome of the underlying link transfer for the command frame (negative =
plugin/poll error, otherwise the whole buffer is sent). -/
structure LinkEnv where
  tuneOk : Bool
  openOk : Bool
  cmdSendRes : Int
deriving DecidableEq, Repr

/-- Result of `__twopence_pipe_command`: the C return code, the two output
status values, and whether the link was opened resp. closed again. -/
structure CommandOut where
  rc : Int
  major : Int
  minor : Int
  linkOpened : Bool
  linkClosed : Bool
deriving DecidableEq, Repr

/-- protocol.c `__twopence_pipe_command` (lines 529-589): validate the user
name, refuse an empty command, format `c...<user> <command>` (whose length
with the twopence header is `4 + |user| + 1 + |command|`; PARAMETER if it
does not fit the command buffer), tune stdin, open the link, send the
command frame, then run `_twopence_read_results`, whose outcome is
abstracted as `results` (`none` = failure, `some (major, minor)` = the two
status values received in order).  Every path after a successful open
closes the link. -/
def __twopence_pipe_command (username cmd : List Nat) (env : LinkEnv)
    (results : Option (Int × Int)) : CommandOut :=
  if _twopence_invalid_username username then
    ⟨TWOPENCE_PARAMETER_ERROR, 0, 0, false, false⟩
  else if cmd = [] then ⟨TWOPENCE_PARAMETER_ERROR, 0, 0, false, false⟩
  else
    let n := 4 + username.length + 1 + cmd.length
    if n ≥ COMMAND_BUFFER_SIZE then ⟨TWOPENCE_PARAMETER_ERROR, 0, 0, false, false⟩
    else if ¬env.tuneOk then ⟨TWOPENCE_OPEN_SESSION_ERROR, 0, 0, false, false⟩
    else if ¬env.openOk then ⟨TWOPENCE_OPEN_SESSION_ERROR, 0, 0, false, false⟩
    else if __twopence_pipe_sendbuf env.cmdSendRes (n + 1) ≠ ((n : Int) + 1) then
      ⟨TWOPENCE_SEND_COMMAND_ERROR, 0, 0, true, true⟩
    else
      match results with
      | none => ⟨TWOPENCE_RECEIVE_RESULTS_ERROR, 0, 0, true, true⟩
      | some (ma, mi) => ⟨0, ma, mi, true, true⟩

/-- Result of the inject functions: the C return code, the value behind the
`remote_rc` output pointer, the number of 'd' data frames transmitted, and
whether the link was opened resp. closed again. -/
structure InjectOut where
  rc : Int
  remote_rc : Int
  dsends : Nat
  linkOpened : Bool
  linkClosed : Bool
deriving DecidableEq, Repr

/-- protocol.c `_twopence_inject_virtio_serial` (lines 594-658): validate
the user name, format `i...<user> <size> <path>`, open the link, send the
command, read the early major status with `_twopence_read_major` — whose
return code `rc` is NOT examined; only `*remote_rc` is tested — abort with
SEND_FILE (closing the link) when the major is non-zero, otherwise stream
the file with `_twopence_send_file` and finally read the minor status into
`remote_rc`. -/
def _twopence_inject_virtio_serial (username : List Nat) (fileSize : Nat)
    (remoteName : List Nat) (env : LinkEnv) (frames : List Frame)
    (readRes sendRes : Nat → Int) : InjectOut :=
  if _twopence_invalid_username username then
    ⟨TWOPENCE_PARAMETER_ERROR, 0, 0, false, false⟩
  else
    let n := 4 + username.length + 1 + (Nat.toDigits 10 fileSize).length
               + 1 + remoteName.length
    if n ≥ COMMAND_BUFFER_SIZE then ⟨TWOPENCE_PARAMETER_ERROR, 0, 0, false, false⟩
    else if ¬env.openOk then ⟨TWOPENCE_OPEN_SESSION_ERROR, 0, 0, false, false⟩
    else if __twopence_pipe_sendbuf env.cmdSendRes (n + 1) ≠ ((n : Int) + 1) then
      ⟨TWOPENCE_SEND_COMMAND_ERROR, 0, 0, true, true⟩
    else
      let rm := _twopence_read_major frames 0
      if rm.val ≠ 0 then ⟨TWOPENCE_SEND_FILE_ERROR, rm.val, 0, true, true⟩
      else
        let sf := _twopence_send_file readRes sendRes fileSize 0
        if sf.rc < 0 then ⟨TWOPENCE_SEND_FILE_ERROR, rm.val, sf.dsends, true, true⟩
        else
          let rmin := _twopence_read_minor rm.rest rm.val
          if rmin.rc < 0 then
            ⟨TWOPENCE_SEND_FILE_ERROR, rmin.val, sf.dsends, true, true⟩
          else ⟨0, rmin.val, sf.dsends, true, true⟩

/-- protocol.c `twopence_pipe_inject_file` (lines 882-908): open the local
file (`localOpenErr` is `none` on success, `some errno` on failure, mapped
to PARAMETER for ENAMETOOLONG and LOCAL_FILE otherwise), call
`_twopence_inject_virtio_serial`, and turn a 0 return with a non-zero
`remote_rc` into REMOTE_FILE. -/
def twopence_pipe_inject_file (localOpenErr : Option Int) (username : List Nat)
    (fileSize : Nat) (remoteName : List Nat) (env : LinkEnv)
    (frames : List Frame) (readRes sendRes : Nat → Int) : InjectOut :=
  match localOpenErr with
  | some e =>
    if e = ENAMETOOLONG then ⟨TWOPENCE_PARAMETER_ERROR, 0, 0, false, false⟩
    else ⟨TWOPENCE_LOCAL_FILE_ERROR, 0, 0, false, false⟩
  | none =>
    let r := _twopence_inject_virtio_serial username fileSize remoteName env
               frames readRes sendRes
    if r.rc = 0 ∧ r.remote_rc ≠ 0 then
      ⟨TWOPENCE_REMOTE_FILE_ERROR, r.remote_rc, r.dsends, r.linkOpened, r.linkClosed⟩
    else r

/-- Result of the extract functions: the C return code, the value behind the
`remote_rc` output pointer, the bytes written to the local file, and whether
the link was opened resp. closed again. -/
structure ExtractOut where
  rc : Int
  remote_rc : Int
  written : List Nat
  linkOpened : Bool
  linkClosed : Bool
deriving DecidableEq, Repr

/-- protocol.c `_twopence_extract_virtio_serial` (lines 663-717): validate
the user name, format `e...<user> <path>`, open the link, send the command,
read the size reply with `_twopence_read_size`.  The local variable `size`
(line 670) is never initialised, and the early-'M' branch of
`_twopence_read_size` leaves it untouched: `sizeInit` stands for the
indeterminate value it holds in that case.  When `size >= 0` the file is
received with `_twopence_receive_file`; note that this error return (lines
710-712) does NOT close the link, unlike every other error return of this
function. -/
def _twopence_extract_virtio_serial (sizeInit : Int) (username remoteName : List Nat)
    (env : LinkEnv) (frames : List Frame) : ExtractOut :=
  if _twopence_invalid_username username then
    ⟨TWOPENCE_PARAMETER_ERROR, 0, [], false, false⟩
  else
    let n := 4 + username.length + 1 + remoteName.length
    if n ≥ COMMAND_BUFFER_SIZE then ⟨TWOPENCE_PARAMETER_ERROR, 0, [], false, false⟩
    else if ¬env.openOk then ⟨TWOPENCE_OPEN_SESSION_ERROR, 0, [], false, false⟩
    else if __twopence_pipe_sendbuf env.cmdSendRes (n + 1) ≠ ((n : Int) + 1) then
      ⟨TWOPENCE_SEND_COMMAND_ERROR, 0, [], true, true⟩
    else
      let rs := _twopence_read_size frames sizeInit 0
      if rs.rc < 0 then ⟨TWOPENCE_RECEIVE_FILE_ERROR, rs.remote_rc, [], true, true⟩
      else if rs.size ≥ 0 then
        let rf := _twopence_receive_file rs.size rs.rest []
        if rf.rc < 0 then
          ⟨TWOPENCE_RECEIVE_FILE_ERROR, rs.remote_rc, rf.written, true, false⟩
        else ⟨0, rs.remote_rc, rf.written, true, true⟩
      else ⟨0, rs.remote_rc, [], true, true⟩

/-- protocol.c `twopence_pipe_extract_file` (lines 913-940): create the local
file, call `_twopence_extract_virtio_serial`, and turn a 0 return with a
non-zero `remote_rc` into REMOTE_FILE. -/
def twopence_pipe_extract_file (localOpenErr : Option Int) (sizeInit : Int)
    (username remoteName : List Nat) (env : LinkEnv) (frames : List Frame) :
    ExtractOut :=
  match localOpenErr with
  | some e =>
    if e = ENAMETOOLONG then ⟨TWOPENCE_PARAMETER_ERROR, 0, [], false, false⟩
    else ⟨TWOPENCE_LOCAL_FILE_ERROR, 0, [], false, false⟩
  | none =>
    let r := _twopence_extract_virtio_serial sizeInit username remoteName env frames
    if r.rc = 0 ∧ r.remote_rc ≠ 0 then
      ⟨TWOPENCE_REMOTE_FILE_ERROR, r.remote_rc, r.written, r.linkOpened, r.linkClosed⟩
    else r

/-- Server-side transaction status state (transaction.h fields `major_sent`,
`minor_sent`, `done`), together with the ordered list of packet-type bytes
of the status/timeout frames queued to the client socket
('M' = 77, 'm' = 109, 'T' = 84). -/
structure TransState where
  major_sent : Bool
  minor_sent : Bool
  done : Bool
  frames : List Nat
deriving DecidableEq, Repr

/-- A freshly created transaction (`twopence_transaction_new`, calloc'd). -/
def initTrans : TransState := ⟨false, false, false, []⟩

/-- transaction.c `twopence_transaction_send_major` (lines 500-507): queue a
MAJOR packet; `assert(!trans->major_sent)` is modelled as `none` (abort). -/
def twopence_transaction_send_major (s : TransState) (code : Int) :
    Option TransState :=
  if s.major_sent then none
  else some ⟨true, s.minor_sent, s.done, s.frames ++ [77]⟩

/-- transaction.c `twopence_transaction_send_minor` (lines 509-516): queue a
MINOR packet; `assert(!trans->minor_sent)` is modelled as `none` (abort). -/
def twopence_transaction_send_minor (s : TransState) (code : Int) :
    Option TransState :=
  if s.minor_sent then none
  else some ⟨s.major_sent, true, s.done, s.frames ++ [109]⟩

/-- transaction.c `twopence_transaction_send_status` (lines 518-528): when
already done, log and return unchanged; otherwise queue a MAJOR and then a
MINOR packet directly (without touching the `major_sent` / `minor_sent`
flags) and set `done`. -/
def twopence_transaction_send_status (s : TransState) : TransState :=
  if s.done then s
  else ⟨s.major_sent, s.minor_sent, true, s.frames ++ [77, 109]⟩

/-- transaction.c `twopence_transaction_fail` (lines 530-544): set `done`;
send major if not yet sent, else minor if not yet sent, else `abort()`
(modelled as `none`). -/
def twopence_transaction_fail (s : TransState) (code : Int) :
    Option TransState :=
  let s1 : TransState := ⟨s.major_sent, s.minor_sent, true, s.frames⟩
  if ¬s1.major_sent then twopence_transaction_send_major s1 code
  else if ¬s1.minor_sent then twopence_transaction_send_minor s1 code
  else none

/-- transaction.c `twopence_transaction_fail2` (lines 546-552): send major,
send minor (each with its single-shot assertion), set `done`. -/
def twopence_transaction_fail2 (s : TransState) (major minor : Int) :
    Option TransState :=
  (twopence_transaction_send_major s major).bind fun s1 =>
    (twopence_transaction_send_minor s1 minor).map fun s2 =>
      ⟨s2.major_sent, s2.minor_sent, true, s2.frames⟩

/-- transaction.c `twopence_transaction_send_timeout` (lines 559-568): queue
a dedicated TIMEOUT ('T') packet — not a MAJOR/MINOR pair — and set `done`. -/
def twopence_transaction_send_timeout (s : TransState) : TransState :=
  ⟨s.major_sent, s.minor_sent, true, s.frames ++ [84]⟩

/-! ## Helper lemmas -/

theorem compute_length_take4 (stream : List Nat) :
    compute_length (stream.take 4) = compute_length stream := by
  unfold compute_length
  rw [List.getD_eq_getElem?_getD, List.getD_eq_getElem?_getD,
      List.getD_eq_getElem?_getD, List.getD_eq_getElem?_getD,
      List.getElem?_take, List.getElem?_take]
  norm_num

theorem invalid_username_cons (c : Nat) (p : List Nat) :
    _twopence_invalid_username (c :: p)
      = if allowedUserChar c then _twopence_invalid_username p else true := by
  by_cases h1 : 48 ≤ c ∧ c ≤ 57 <;> by_cases h2 : 65 ≤ c ∧ c ≤ 90 <;>
    by_cases h3 : 97 ≤ c ∧ c ≤ 122 <;> by_cases h4 : c = 95 <;>
    simp [_twopence_invalid_username, allowedUserChar, h1, h2, h3, h4]

/-! ## Claim theorems -/

/-- Helper: full characterization of the length validation performed by
`__twopence_pipe_read_frame`. -/
theorem read_frame_length_spec (size : Nat) (stream : List Nat)
    (h4 : 4 ≤ stream.length) :
    (compute_length stream < 4 ∨ size < compute_length stream →
      __twopence_pipe_read_frame size stream
        = ⟨TWOPENCE_PROTOCOL_ERROR, 4, stream.take 4⟩)
    ∧ (4 ≤ compute_length stream → compute_length stream ≤ size →
        compute_length stream ≤ stream.length →
        (__twopence_pipe_read_frame size stream).rc = 0
          ∧ (__twopence_pipe_read_frame size stream).consumed
              = compute_length stream) := by
  have hrecv : __twopence_pipe_recvbuf stream 4
      = some (stream.take 4, stream.drop 4) := by
    simp [__twopence_pipe_recvbuf, h4]
  constructor
  · intro h
    unfold __twopence_pipe_read_frame
    rw [hrecv]
    simp only [compute_length_take4]
    by_cases hgt : compute_length stream > size
    · rw [if_pos hgt]
    · rw [if_neg hgt, if_pos (by omega : compute_length stream < 4)]
  · intro hge hle hlen
    have hlen2 : compute_length stream - 4 ≤ (stream.drop 4).length := by
      rw [List.length_drop]; omega
    unfold __twopence_pipe_read_frame
    rw [hrecv]
    simp only [compute_length_take4]
    rw [if_neg (by omega : ¬ compute_length stream > size),
        if_neg (by omega : ¬ compute_length stream < 4)]
    unfold __twopence_pipe_recvbuf
    rw [if_pos hlen2]
    exact ⟨rfl, rfl⟩

/-- C1 (amended): the frame reader validates the announced total length
before reading any payload byte: an announced length below 4 or above the
receive buffer capacity makes `__twopence_pipe_read_frame` return PROTOCOL
having consumed only the 4 header bytes, and an announced length in the
accepted range `[4, size]` leads to reading exactly the announced frame. -/
theorem read_frame_length_validation (size : Nat) (stream : List Nat)
    (h4 : 4 ≤ stream.length) :
    (compute_length stream < 4 ∨ size < compute_length stream →
      __twopence_pipe_read_frame size stream
        = ⟨TWOPENCE_PROTOCOL_ERROR, 4, stream.take 4⟩)
    ∧ (4 ≤ compute_length stream → compute_length stream ≤ size →
        compute_length stream ≤ stream.length →
        (__twopence_pipe_read_frame size stream).rc = 0
          ∧ (__twopence_pipe_read_frame size stream).consumed
              = compute_length stream) :=
  read_frame_length_spec size stream h4

/-- C1 (witness): on input `[100, 0, 0, 3]` (announced length 3 < 4) with a
10-byte buffer the reader returns PROTOCOL, consuming only the header. -/
theorem read_frame_length_validation_witness :
    __twopence_pipe_read_frame 10 [100, 0, 0, 3]
      = ⟨TWOPENCE_PROTOCOL_ERROR, 4, [100, 0, 0, 3]⟩ :=
  (read_frame_length_validation 10 [100, 0, 0, 3] (by decide)).1 (by decide)

/-- C1 (counterexample): the claim's "announced lengths ≥ MTU (32768) are
rejected" is false: a frame whose header announces exactly 32768 — the MTU
and the receive buffer capacity — is accepted, and its full 32764-byte
payload is read (`rc = 0`, 32768 bytes consumed). -/
theorem read_frame_mtu_not_rejected :
    compute_length ([100, 0, 128, 0] ++ List.replicate 32764 97) = 32768
    ∧ (__twopence_pipe_read_frame BUFFER_SIZE
        ([100, 0, 128, 0] ++ List.replicate 32764 97)).rc = 0
    ∧ (__twopence_pipe_read_frame BUFFER_SIZE
        ([100, 0, 128, 0] ++ List.replicate 32764 97)).consumed = 32768 := by
  have hclen : compute_length ([100, 0, 128, 0] ++ List.replicate 32764 97)
      = 32768 := rfl
  have hlen : ([100, 0, 128, 0] ++ List.replicate 32764 97).length = 32768 := by
    rw [List.length_append, List.length_replicate]
    rfl
  have h := read_frame_length_spec BUFFER_SIZE
      ([100, 0, 128, 0] ++ List.replicate 32764 97) (by rw [hlen]; norm_num)
  have hs := h.2 (by rw [hclen]; norm_num)
      (by rw [hclen]; norm_num [BUFFER_SIZE]) (by rw [hclen, hlen])
  exact ⟨hclen, hs.1, by rw [hs.2, hclen]⟩

/-- C2 (amended): a user name passes `_twopence_invalid_username` if and
only if every one of its bytes is in `[A-Za-z0-9_]` — in particular the
EMPTY name passes — and every client operation taking a user name (command,
inject, extract) returns PARAMETER exactly when the name contains a byte
outside that set. -/
theorem username_validation (u cmd : List Nat) (env : LinkEnv)
    (results : Option (Int × Int)) (fileSize : Nat) (rname : List Nat)
    (frames : List Frame) (readRes sendRes : Nat → Int) (sizeInit : Int) :
    (_twopence_invalid_username u = false ↔ ∀ c ∈ u, allowedUserChar c = true)
    ∧ (_twopence_invalid_username u = true →
        (__twopence_pipe_command u cmd env results).rc = TWOPENCE_PARAMETER_ERROR
        ∧ (_twopence_inject_virtio_serial u fileSize rname env frames
              readRes sendRes).rc = TWOPENCE_PARAMETER_ERROR
        ∧ (_twopence_extract_virtio_serial sizeInit u rname env frames).rc
            = TWOPENCE_PARAMETER_ERROR) := by
  constructor
  · induction u with
    | nil => simp [_twopence_invalid_username]
    | cons c p ih =>
      rw [invalid_username_cons]
      by_cases hc : allowedUserChar c
      · simp [hc, ih]
      · simp [hc]
  · intro h
    refine ⟨?_, ?_, ?_⟩ <;>
      simp [__twopence_pipe_command, _twopence_inject_virtio_serial,
            _twopence_extract_virtio_serial, h]

/-- C2 (witness): `"."` (byte 46) is rejected by the check and makes the
command operation fail with PARAMETER. -/
theorem username_validation_witness :
    _twopence_invalid_username [46] = true
    ∧ (__twopence_pipe_command [46] [120] ⟨true, true, 0⟩ (some (0, 0))).rc
        = TWOPENCE_PARAMETER_ERROR :=
  ⟨by decide,
   ((username_validation [46] [120] ⟨true, true, 0⟩ (some (0, 0)) 0 [] []
       (fun _ => 0) (fun _ => 0) 0).2 (by decide)).1⟩

/-- C2 (counterexample): the claim's "the empty user name is invalid" and
"every client operation returns PARAMETER for the empty name" are false:
the scan loop of `_twopence_invalid_username` never runs on the empty name,
so it passes, and a command run as the empty user proceeds normally
(returning 0 when the link delivers major 0, minor 0). -/
theorem empty_username_not_rejected :
    _twopence_invalid_username [] = false
    ∧ (__twopence_pipe_command [] [120] ⟨true, true, 0⟩ (some (0, 0))).rc = 0 := by
  decide

/-- C3 (counterexample): `twopence_transaction_send_timeout` is one of the
listed ways of reaching DONE, yet a fresh transaction reaching DONE through
it has emitted NO major status frame (its only emission is the TIMEOUT
packet, type 84), refuting "exactly one major status frame". -/
theorem send_timeout_reaches_done_without_major :
    (twopence_transaction_send_timeout initTrans).done = true
    ∧ (twopence_transaction_send_timeout initTrans).frames.count 77 = 0
    ∧ (twopence_transaction_send_timeout initTrans).frames = [84] := by
  decide

/-- C3 (amended): a transaction that reaches DONE through `send_status`,
`fail` (whether or not a major was already sent), or `fail2` has emitted
exactly one major and at most one minor status frame, the major first;
a transaction that reaches DONE through `send_timeout` has emitted no major
and no minor status frame, only the dedicated TIMEOUT packet. -/
theorem transaction_done_status_discipline (c major minor : Int) :
    ((twopence_transaction_send_status initTrans).done = true
      ∧ (twopence_transaction_send_status initTrans).frames = [77, 109])
    ∧ twopence_transaction_fail initTrans c = some ⟨true, false, true, [77]⟩
    ∧ (twopence_transaction_send_major initTrans major).bind
          (fun s => twopence_transaction_fail s c)
        = some ⟨true, true, true, [77, 109]⟩
    ∧ twopence_transaction_fail2 initTrans major minor
        = some ⟨true, true, true, [77, 109]⟩
    ∧ (twopence_transaction_send_timeout initTrans).done = true
    ∧ (twopence_transaction_send_timeout initTrans).frames.count 77 = 0
    ∧ (twopence_transaction_send_timeout initTrans).frames.count 109 = 0 :=
  ⟨⟨rfl, rfl⟩, rfl, rfl, rfl, rfl, rfl, rfl⟩

/-- C4 (amended): when the server's early major status is non-zero, the
client transmits no 'd' data frame and `_twopence_inject_virtio_serial`
aborts with SEND_FILE (closing the link), leaving the major code in
`*remote_rc`; the public wrapper therefore also surfaces SEND_FILE. -/
theorem inject_early_major_aborts (username : List Nat) (fileSize : Nat)
    (rname : List Nat) (env : LinkEnv) (m : Int) (rest : List Frame)
    (readRes sendRes : Nat → Int)
    (hu : _twopence_invalid_username username = false)
    (hn : 4 + username.length + 1 + (Nat.toDigits 10 fileSize).length
            + 1 + rname.length < COMMAND_BUFFER_SIZE)
    (hopen : env.openOk = true)
    (hsend : 0 ≤ env.cmdSendRes)
    (hm : m ≠ 0) :
    _twopence_inject_virtio_serial username fileSize rname env
        (⟨77, m, []⟩ :: rest) readRes sendRes
      = ⟨TWOPENCE_SEND_FILE_ERROR, m, 0, true, true⟩
    ∧ twopence_pipe_inject_file none username fileSize rname env
        (⟨77, m, []⟩ :: rest) readRes sendRes
      = ⟨TWOPENCE_SEND_FILE_ERROR, m, 0, true, true⟩ := by
  have hn' : ¬ (4 + username.length + 1 + (Nat.toDigits 10 fileSize).length
      + 1 + rname.length ≥ COMMAND_BUFFER_SIZE) := by omega
  have hs' : ¬ (env.cmdSendRes < 0) := by omega
  have hinner : _twopence_inject_virtio_serial username fileSize rname env
      (⟨77, m, []⟩ :: rest) readRes sendRes
      = ⟨TWOPENCE_SEND_FILE_ERROR, m, 0, true, true⟩ := by
    simp [_twopence_inject_virtio_serial, hu, hn', hopen, hs',
          __twopence_pipe_sendbuf, _twopence_read_major, hm]
  refine ⟨hinner, ?_⟩
  simp only [twopence_pipe_inject_file, hinner]
  norm_num [TWOPENCE_SEND_FILE_ERROR]

/-- C4 (witness): user "t", a 10-byte file, early major 2: no 'd' frame is
sent, SEND_FILE is returned and `remote_rc = 2`. -/
theorem inject_early_major_aborts_witness :
    _twopence_inject_virtio_serial [116] 10 [120] ⟨true, true, 0⟩
        (⟨77, 2, []⟩ :: []) (fun _ => 0) (fun _ => 0)
      = ⟨TWOPENCE_SEND_FILE_ERROR, 2, 0, true, true⟩ :=
  (inject_early_major_aborts [116] 10 [120] ⟨true, true, 0⟩ 2 []
      (fun _ => 0) (fun _ => 0) (by decide) (by decide) rfl (by decide)
      (by decide)).1

/-- C4 (counterexample): the claim's "twopence_pipe_inject_file returns
REMOTE_FILE" is false: when the server's early major status is 2, the
public API returns the (distinct) SEND_FILE error — the inner function
returns SEND_FILE rather than 0, so the wrapper's REMOTE_FILE rewrite
(`rc == 0 && *remote_rc != 0`) never fires. -/
theorem inject_early_major_not_remote_file :
    (twopence_pipe_inject_file none [116] 10 [120] ⟨true, true, 0⟩
        [⟨77, 2, []⟩] (fun _ => 0) (fun _ => 0)).rc = TWOPENCE_SEND_FILE_ERROR
    ∧ (twopence_pipe_inject_file none [116] 10 [120] ⟨true, true, 0⟩
        [⟨77, 2, []⟩] (fun _ => 0) (fun _ => 0)).remote_rc = 2
    ∧ (twopence_pipe_inject_file none [116] 10 [120] ⟨true, true, 0⟩
        [⟨77, 2, []⟩] (fun _ => 0) (fun _ => 0)).dsends = 0
    ∧ TWOPENCE_SEND_FILE_ERROR ≠ TWOPENCE_REMOTE_FILE_ERROR := by
  decide

/-- C5: the extract operation's file-receive error return (protocol.c lines
710-712) does NOT close the link, although it has successfully opened it:
with a valid size reply `s 5` followed by a failing receive, the function
returns RECEIVE_FILE with the link left open, contradicting the claim that
every error return closes the link. -/
theorem extract_receive_error_leaks_link :
    (_twopence_extract_virtio_serial 0 [116] [120] ⟨true, true, 0⟩
        [⟨115, 5, []⟩]).rc = TWOPENCE_RECEIVE_FILE_ERROR
    ∧ (_twopence_extract_virtio_serial 0 [116] [120] ⟨true, true, 0⟩
        [⟨115, 5, []⟩]).linkOpened = true
    ∧ (_twopence_extract_virtio_serial 0 [116] [120] ⟨true, true, 0⟩
        [⟨115, 5, []⟩]).linkClosed = false := by
  decide

/-- C6: in `__twopence_pipe_recvbuf_both`, when poll reports stdin readable
and the link not readable, the iteration falls through both guards — the
second guard re-tests the link's revents (`pfd[0]`) instead of stdin's — so
the loop spins without reading stdin, and no outcome of the function ever
forwards a stdin chunk as a '0'/'E' frame, contradicting the claimed
(intended) behavior. -/
theorem recvbuf_both_stdin_ready_not_forwarded :
    __twopence_pipe_recvbuf_both true false true = BothOutcome.spin
    ∧ ∀ h l s : Bool,
        __twopence_pipe_recvbuf_both h l s ≠ BothOutcome.stdinFrame := by
  decide

/-- C7: on an early 'M 2' reply to extract, `remote_rc` is set to 2, but
the un-initialised local `size` decides what happens next: if its stale
value is 5 the client tries to consume 5 bytes of 'd' file data and the
public API returns RECEIVE_FILE, not the claimed REMOTE_FILE; only if the
stale value happens to be negative does REMOTE_FILE come out. -/
theorem extract_early_major_uninitialized_size :
    (_twopence_extract_virtio_serial 5 [116] [120] ⟨true, true, 0⟩
        [⟨77, 2, []⟩]).remote_rc = 2
    ∧ (twopence_pipe_extract_file none 5 [116] [120] ⟨true, true, 0⟩
        [⟨77, 2, []⟩]).rc = TWOPENCE_RECEIVE_FILE_ERROR
    ∧ (twopence_pipe_extract_file none (-1) [116] [120] ⟨true, true, 0⟩
        [⟨77, 2, []⟩]).rc = TWOPENCE_REMOTE_FILE_ERROR
    ∧ TWOPENCE_RECEIVE_FILE_ERROR ≠ TWOPENCE_REMOTE_FILE_ERROR := by
  decide

/-- Helper: `_twopence_send_file` with nothing left to send. -/
theorem send_file_zero_eq (readRes sendRes : Nat → Int) (i : Nat) :
    _twopence_send_file readRes sendRes 0 i = ⟨0, 0, 0⟩ := by
  simp [_twopence_send_file]

/-- C8: a failed link send does NOT stop `_twopence_send_file`: sending one
chunk of a 1-byte file while the link send fails with -1 — so that
`__twopence_pipe_sendbuf` returns -1 — makes the guard
`if (!__twopence_pipe_sendbuf(...))` (which only fires on a 0 return) fall
through, and the transfer "completes" with rc = 0 instead of stopping with
SEND_FILE as the claim states. -/
theorem send_file_ignores_link_send_error :
    __twopence_pipe_sendbuf (-1) 5 = -1
    ∧ _twopence_send_file (fun _ => 1) (fun _ => -1) 1 0 = ⟨0, 1, 1⟩ := by
  constructor
  · decide
  · rw [show (1 : Nat) = 0 + 1 from rfl, _twopence_send_file]
    norm_num [__twopence_pipe_sendbuf, BUFFER_SIZE, send_file_zero_eq]

/-- C9: injecting a zero-length file transmits nothing:
`_twopence_send_file` with `remaining = 0` performs no file read, hands no
'd' frame to the link, and returns 0, whatever the file and link would
have answered. -/
theorem send_file_zero_remaining (readRes sendRes : Nat → Int) (i : Nat) :
    _twopence_send_file readRes sendRes 0 i = ⟨0, 0, 0⟩ :=
  send_file_zero_eq readRes sendRes i

/-- Helper: a well-formed 'd' frame with empty payload is accepted by
`_twopence_receive_file` and changes nothing. -/
theorem receive_file_empty_step (remaining : Int) (rest : List Frame)
    (written : List Nat) (h : 0 < remaining) :
    _twopence_receive_file remaining (⟨100, 0, []⟩ :: rest) written
      = _twopence_receive_file remaining rest written := by
  conv_lhs => rw [_twopence_receive_file]
  rw [if_neg (by omega)]
  have h1 : ¬ ((0 : Int) > remaining) := by omega
  norm_num [h1]

/-- C10: while receiving an extracted file, a 'd' frame with an empty
payload (announced length exactly 4) is accepted but is a no-op: the bytes
written and the remaining count are unchanged, and a stream consisting of
only such frames never completes the transfer (the reader eventually fails
with RECEIVE_FILE when the stream runs out, with nothing written). -/
theorem receive_file_empty_data_frame (remaining : Int) (rest : List Frame)
    (written : List Nat) (k : Nat) (h : 0 < remaining) :
    _twopence_receive_file remaining (⟨100, 0, []⟩ :: rest) written
      = _twopence_receive_file remaining rest written
    ∧ _twopence_receive_file remaining (List.replicate k ⟨100, 0, []⟩) written
      = ⟨TWOPENCE_RECEIVE_FILE_ERROR, written⟩ := by
  refine ⟨receive_file_empty_step remaining rest written h, ?_⟩
  induction k with
  | zero =>
    rw [List.replicate_zero]
    conv_lhs => rw [_twopence_receive_file]
    rw [if_neg (by omega)]
  | succ k ih =>
    rw [List.replicate_succ, receive_file_empty_step remaining _ written h]
    exact ih

/-- C10 (witness): with 3 bytes expected, one empty 'd' frame is a no-op,
and a stream of two empty 'd' frames ends in RECEIVE_FILE with nothing
written. -/
theorem receive_file_empty_data_frame_witness :
    _twopence_receive_file 3 (⟨100, 0, []⟩ :: []) []
      = _twopence_receive_file 3 [] []
    ∧ _twopence_receive_file 3 (List.replicate 2 ⟨100, 0, []⟩) []
      = ⟨TWOPENCE_RECEIVE_FILE_ERROR, []⟩ :=
  receive_file_empty_data_frame 3 [] [] 2 (by decide)

end Twopence
